import Mathlib

/-!
Shallow embedding of `TikTokApi/api/search.py` (class `Search`): the paginated
search driver `search_type` and its three facades `users`, `general`,
`keyword_suggestion`.  The transport delegate (`Search.parent.make_request`)
is modelled by a response script: a list of the values the transport would
return on successive calls, where `none` stands for a Python `None` payload.
Running the driver against a script records the requests issued, the pages
consumed, the items yielded per page, and how the session ended.
-/

namespace TikTokSearch

/-- Nested `user_info` mapping of one raw user-search record.  The decoder
reads the three identifiers with `.get`, so each may be absent (Python
`None`), modelled as `Option`. -/
structure UserInfo where
  sec_uid : Option String
  user_id : Option String
  unique_id : Option String
deriving DecidableEq

/-- One raw record of `user_list`; the `user_info` key itself may be absent
or null, which `user.get("user_info")` surfaces as Python `None`. -/
structure UserRecord where
  user_info : Option UserInfo
deriving DecidableEq

/-- One non-null transport payload (a parsed JSON mapping).  Every field the
driver reads is optional, matching dict `.get` access; raw video records are
opaque (the code constructs the video entity with no arguments), raw keyword
suggestions are opaque strings. -/
structure PageResp where
  user_list : Option (List UserRecord)
  video_list : Option (List Nat)
  suggestion_list : Option (List String)
  has_more : Option Bool
  cursor : Option Int
deriving DecidableEq

/-- An item yielded to the caller: a user reference built from the three
extracted identifiers, a video entity (built with no arguments in the
source), or a keyword suggestion wrapping the raw keyword. -/
inductive ResultItem where
  | userRef (sec_uid : Option String) (user_id : Option String)
      (username : Option String)
  | videoRef
  | keywordRef (keyword : String)
deriving DecidableEq

/-- How a session can fail: `invalidResponse` is the explicit
`InvalidResponseException` raised on a `None` payload; `attributeError` is
the Python `AttributeError` from `user.get("user_info").get(...)` when
`user_info` is absent/null. -/
inductive RunError where
  | invalidResponse
  | attributeError
deriving DecidableEq

/-- How a run against a finite response script ends: `ok` when the generator
returns normally, `error` when an exception propagates, `outOfPages` when the
loop would fetch another page but the script provides no more responses. -/
inductive Outcome where
  | ok
  | error (e : RunError)
  | outOfPages
deriving DecidableEq

/-- One page request as handed to the transport: the URL and the four query
parameters built in `search_type`. -/
structure Request where
  url : String
  keyword : String
  cursor : Option Int
  from_page : String
  web_search_code : String
deriving DecidableEq

/-- The fixed `web_search_code` literal from the source (braces written as
escapes). -/
def webSearchCodeLiteral : String :=
  "\x7b\"tiktok\":\x7b\"client_params_x\":\x7b\"search_engine\":\x7b\"ies_mt_user_live_video_card_use_libra\":1,\"mt_search_general_user_live_card\":1\x7d\x7d,\"search_server\":\x7b\x7d\x7d\x7d"

/-- Build the request for one page: URL from the object type, and the
parameter dict `{keyword, cursor, from_page: "search", web_search_code}`. -/
def mkRequest (term ot : String) (cursor : Option Int) : Request :=
  ⟨"https://www.tiktok.com/api/search/" ++ ot ++ "/", term, cursor, "search",
    webSearchCodeLiteral⟩

/-- Emit user items from `user_list`, in order, crashing with
`AttributeError` at the first record whose `user_info` is absent/null
(`None.get(...)`); items decoded before the crash have already been
yielded. -/
def emitUsers : List UserRecord → List ResultItem × Option RunError
  | [] => ([], none)
  | u :: rest =>
    match u.user_info with
    | none => ([], some .attributeError)
    | some info =>
      let r := emitUsers rest
      (.userRef info.sec_uid info.user_id info.unique_id :: r.1, r.2)

/-- Emit the items of one page for the given object type, mirroring the three
`if obj_type == ...` blocks; a missing list field defaults to the empty list
via `resp.get(field, [])`. -/
def emitPage (ot : String) (resp : PageResp) : List ResultItem × Option RunError :=
  if ot == "user/full" then
    emitUsers (resp.user_list.getD [])
  else if ot == "general/full" then
    ((resp.video_list.getD []).map fun _ => ResultItem.videoRef, none)
  else if ot == "general/preview" then
    ((resp.suggestion_list.getD []).map ResultItem.keywordRef, none)
  else ([], none)

/-- The observable trace of one session run against a response script. -/
structure RunResult where
  requests : List Request
  pages : List (Option PageResp)
  batches : List (List ResultItem)
  outcome : Outcome
deriving DecidableEq

/-- All items yielded across the session, in order. -/
def RunResult.yielded (r : RunResult) : List ResultItem := r.batches.flatten

/-- The `while found < count` loop of `search_type`: build the request,
consume the next scripted response, raise on `None`, emit the page's items
(incrementing `found` per item), stop when `has_more` is falsy, otherwise
take the next cursor from the response and iterate. -/
def searchLoop (term ot : String) (count : Int) :
    List (Option PageResp) → Int → Option Int → RunResult
  | [], found, _ =>
    if found < count then ⟨[], [], [], .outOfPages⟩ else ⟨[], [], [], .ok⟩
  | x :: rest, found, cursor =>
    if found < count then
      match x with
      | none => ⟨[mkRequest term ot cursor], [none], [], .error .invalidResponse⟩
      | some resp =>
        match (emitPage ot resp).2 with
        | some e =>
          ⟨[mkRequest term ot cursor], [some resp], [(emitPage ot resp).1],
            .error e⟩
        | none =>
          if resp.has_more.getD false then
            let r := searchLoop term ot count rest
              (found + ((emitPage ot resp).1.length : Int)) resp.cursor
            ⟨mkRequest term ot cursor :: r.requests, some resp :: r.pages,
              (emitPage ot resp).1 :: r.batches, r.outcome⟩
          else
            ⟨[mkRequest term ot cursor], [some resp], [(emitPage ot resp).1],
              .ok⟩
    else ⟨[], [], [], .ok⟩

/-- `Search.search_type(search_term, obj_type, count, cursor)` run against a
response script. -/
def search_type (term ot : String) (count cursor : Int)
    (script : List (Option PageResp)) : RunResult :=
  searchLoop term ot count script 0 (some cursor)

/-- `Search.users`: delegate to `search_type` with `"user/full"`. -/
def users (term : String) (count cursor : Int)
    (script : List (Option PageResp)) : RunResult :=
  search_type term "user/full" count cursor script

/-- The advisory logged by `Search.general` for `count > 9`. -/
def generalWarning : String :=
  "TikTok only allows a maximum of 9 videos to be returned per search without login."

/-- Result of `Search.general`: the warnings logged plus the delegated run. -/
structure GeneralResult where
  warnings : List String
  run : RunResult
deriving DecidableEq

/-- `Search.general`: log the advisory when `count > 9`, then delegate to
`search_type` with `"general/full"`. -/
def general (term : String) (count cursor : Int)
    (script : List (Option PageResp)) : GeneralResult :=
  ⟨if count > 9 then [generalWarning] else [],
    search_type term "general/full" count cursor script⟩

/-- `Search.keyword_suggestion`: delegate to `search_type` with
`"general/preview"`. -/
def keyword_suggestion (term : String) (count cursor : Int)
    (script : List (Option PageResp)) : RunResult :=
  search_type term "general/preview" count cursor script

/-! Helper lemmas about the pagination loop. -/

/-- When `found` has already reached `count`, the loop body is never entered:
no request, no page, no yield, normal return. -/
theorem searchLoop_done (term ot : String) (count : Int)
    (s : List (Option PageResp)) (found : Int) (cursor : Option Int)
    (h : ¬ found < count) :
    searchLoop term ot count s found cursor = ⟨[], [], [], .ok⟩ := by
  cases s <;> simp [searchLoop, h]

/-- When the loop is entered with at least one scripted response ahead, the
first request issued carries the current cursor. -/
theorem searchLoop_first_request_cons (term ot : String) (count : Int)
    (x : Option PageResp) (rest : List (Option PageResp)) (found : Int)
    (cursor : Option Int) (h : found < count) :
    (searchLoop term ot count (x :: rest) found cursor).requests[0]? =
      some (mkRequest term ot cursor) := by
  cases x with
  | none => simp [searchLoop, h]
  | some resp =>
    cases he : (emitPage ot resp).2 with
    | none =>
      by_cases hm : resp.has_more.getD false = true
      · simp [searchLoop, h, he, hm]
      · simp [searchLoop, h, he, hm]
    | some e => simp [searchLoop, h, he]

/-- Any first request of the loop carries the current cursor. -/
theorem searchLoop_first_request (term ot : String) (count : Int)
    (s : List (Option PageResp)) (found : Int) (cursor : Option Int)
    (q : Request)
    (h : (searchLoop term ot count s found cursor).requests[0]? = some q) :
    q = mkRequest term ot cursor := by
  cases s with
  | nil => by_cases hf : found < count <;> simp [searchLoop, hf] at h
  | cons x rest =>
    by_cases hf : found < count
    · rw [searchLoop_first_request_cons term ot count x rest found cursor hf] at h
      exact (Option.some_inj.mp h).symm
    · rw [searchLoop_done term ot count _ found cursor hf] at h
      simp at h

/-- When the loop is entered with a non-null scripted response ahead, that
response is recorded as the first consumed page. -/
theorem searchLoop_first_page_cons (term ot : String) (count : Int)
    (p : PageResp) (rest : List (Option PageResp)) (found : Int)
    (cursor : Option Int) (h : found < count) :
    (searchLoop term ot count (some p :: rest) found cursor).pages[0]? =
      some (some p) := by
  cases he : (emitPage ot p).2 with
  | none =>
    by_cases hm : p.has_more.getD false = true
    · simp [searchLoop, h, he, hm]
    · simp [searchLoop, h, he, hm]
  | some e => simp [searchLoop, h, he]

/-- Cursor chaining: whenever a `k+1`-st request exists, the `k`-th consumed
page was a non-null response and the request's cursor parameter is exactly
that response's `cursor` field. -/
theorem searchLoop_cursor_chain (term ot : String) (count : Int) :
    ∀ (s : List (Option PageResp)) (found : Int) (cursor : Option Int)
      (k : Nat) (q : Request),
      (searchLoop term ot count s found cursor).requests[k + 1]? = some q →
      ∃ p, (searchLoop term ot count s found cursor).pages[k]? = some (some p) ∧
        q.cursor = p.cursor := by
  intro s
  induction s with
  | nil =>
    intro found cursor k q h
    by_cases hf : found < count <;> simp [searchLoop, hf] at h
  | cons x rest ih =>
    intro found cursor k q h
    by_cases hf : found < count
    · cases x with
      | none => simp [searchLoop, hf] at h
      | some resp =>
        cases he : (emitPage ot resp).2 with
        | some e => simp [searchLoop, hf, he] at h
        | none =>
          by_cases hm : resp.has_more.getD false = true
          · simp only [searchLoop, if_pos hf, he, hm, if_true] at h ⊢
            rw [List.getElem?_cons_succ] at h
            cases k with
            | zero =>
              refine ⟨resp, by simp, ?_⟩
              have := searchLoop_first_request term ot count rest
                (found + ((emitPage ot resp).1.length : Int)) resp.cursor q h
              rw [this, mkRequest]
            | succ j =>
              obtain ⟨p, hp, hq⟩ := ih (found + ((emitPage ot resp).1.length : Int))
                resp.cursor j q h
              exact ⟨p, by simpa using hp, hq⟩
          · simp [searchLoop, hf, he, hm] at h
    · rw [searchLoop_done term ot count _ found cursor hf] at h
      simp at h

/-- A `None` transport payload is fatal: if the `k`-th consumed page is
`none`, the session ends there with `InvalidResponse`, having issued exactly
`k+1` requests, and all item batches come from the `k` earlier pages. -/
theorem searchLoop_null_page (term ot : String) (count : Int) :
    ∀ (s : List (Option PageResp)) (found : Int) (cursor : Option Int)
      (k : Nat),
      (searchLoop term ot count s found cursor).pages[k]? = some none →
      (searchLoop term ot count s found cursor).outcome =
        .error .invalidResponse ∧
      (searchLoop term ot count s found cursor).requests.length = k + 1 ∧
      (searchLoop term ot count s found cursor).pages.length = k + 1 ∧
      (searchLoop term ot count s found cursor).batches.length = k := by
  intro s
  induction s with
  | nil =>
    intro found cursor k h
    by_cases hf : found < count <;> simp [searchLoop, hf] at h
  | cons x rest ih =>
    intro found cursor k h
    by_cases hf : found < count
    · cases x with
      | none =>
        cases k with
        | zero => simp [searchLoop, hf]
        | succ j => simp [searchLoop, hf] at h
      | some resp =>
        cases he : (emitPage ot resp).2 with
        | some e =>
          cases k with
          | zero => simp [searchLoop, hf, he] at h
          | succ j => simp [searchLoop, hf, he] at h
        | none =>
          by_cases hm : resp.has_more.getD false = true
          · simp only [searchLoop, if_pos hf, he, hm, if_true] at h ⊢
            cases k with
            | zero => simp at h
            | succ j =>
              rw [List.getElem?_cons_succ] at h
              obtain ⟨h1, h2, h3, h4⟩ := ih
                (found + ((emitPage ot resp).1.length : Int)) resp.cursor j h
              refine ⟨h1, ?_, ?_, ?_⟩ <;> simp [h2, h3, h4]
          · cases k with
            | zero => simp [searchLoop, hf, he, hm] at h
            | succ j => simp [searchLoop, hf, he, hm] at h
    · rw [searchLoop_done term ot count _ found cursor hf] at h
      simp at h

/-- Once a consumed page reports `has_more` false or absent, the session makes
no further transport call: that page is the last one, and exactly `k+1`
requests were made in total. -/
theorem searchLoop_no_more (term ot : String) (count : Int) :
    ∀ (s : List (Option PageResp)) (found : Int) (cursor : Option Int)
      (k : Nat) (p : PageResp),
      (searchLoop term ot count s found cursor).pages[k]? = some (some p) →
      p.has_more.getD false = false →
      (searchLoop term ot count s found cursor).requests.length = k + 1 ∧
      (searchLoop term ot count s found cursor).pages.length = k + 1 := by
  intro s
  induction s with
  | nil =>
    intro found cursor k p h hm
    by_cases hf : found < count <;> simp [searchLoop, hf] at h
  | cons x rest ih =>
    intro found cursor k p h hm
    by_cases hf : found < count
    · cases x with
      | none =>
        cases k with
        | zero => simp [searchLoop, hf] at h
        | succ j => simp [searchLoop, hf] at h
      | some resp =>
        cases he : (emitPage ot resp).2 with
        | some e =>
          cases k with
          | zero => simp [searchLoop, hf, he]
          | succ j => simp [searchLoop, hf, he] at h
        | none =>
          by_cases hmr : resp.has_more.getD false = true
          · simp only [searchLoop, if_pos hf, he, hmr, if_true] at h ⊢
            cases k with
            | zero =>
              rw [List.getElem?_cons_zero] at h
              obtain rfl : resp = p := by simpa using h
              rw [hmr] at hm
              exact absurd hm (by simp)
            | succ j =>
              rw [List.getElem?_cons_succ] at h
              obtain ⟨h1, h2⟩ := ih
                (found + ((emitPage ot resp).1.length : Int)) resp.cursor j p h hm
              constructor <;> simp [h1, h2]
          · cases k with
            | zero => simp [searchLoop, hf, he, hmr]
            | succ j => simp [searchLoop, hf, he, hmr] at h
    · rw [searchLoop_done term ot count _ found cursor hf] at h
      simp at h

/-- Every request issued by the loop carries the search term as `keyword`,
the literal `from_page="search"`, the fixed `web_search_code` blob, and the
URL built from the object type. -/
theorem searchLoop_request_params (term ot : String) (count : Int) :
    ∀ (s : List (Option PageResp)) (found : Int) (cursor : Option Int)
      (q : Request),
      q ∈ (searchLoop term ot count s found cursor).requests →
      q.keyword = term ∧ q.from_page = "search" ∧
      q.web_search_code = webSearchCodeLiteral ∧
      q.url = "https://www.tiktok.com/api/search/" ++ ot ++ "/" := by
  intro s
  induction s with
  | nil =>
    intro found cursor q h
    by_cases hf : found < count <;> simp [searchLoop, hf] at h
  | cons x rest ih =>
    intro found cursor q h
    by_cases hf : found < count
    · cases x with
      | none =>
        obtain rfl : q = mkRequest term ot cursor := by
          simpa [searchLoop, hf] using h
        exact ⟨rfl, rfl, rfl, rfl⟩
      | some resp =>
        cases he : (emitPage ot resp).2 with
        | some e =>
          obtain rfl : q = mkRequest term ot cursor := by
            simpa [searchLoop, hf, he] using h
          exact ⟨rfl, rfl, rfl, rfl⟩
        | none =>
          by_cases hm : resp.has_more.getD false = true
          · simp only [searchLoop, if_pos hf, he, hm, if_true,
              List.mem_cons] at h
            rcases h with rfl | h
            · exact ⟨rfl, rfl, rfl, rfl⟩
            · exact ih (found + ((emitPage ot resp).1.length : Int))
                resp.cursor q h
          · obtain rfl : q = mkRequest term ot cursor := by
              simpa [searchLoop, hf, he, hm] using h
            exact ⟨rfl, rfl, rfl, rfl⟩
    · rw [searchLoop_done term ot count _ found cursor hf] at h
      simp at h

/-- Upper yield bound: since `found < count` is re-checked only between
pages, the items yielded from `found` onward overshoot `count - found` by at
most the last batch size minus one (stated for an arbitrary default `d` of
`getLastD` so the bound composes through the recursion). -/
theorem searchLoop_upper (term ot : String) (count : Int) :
    ∀ (s : List (Option PageResp)) (found : Int) (cursor : Option Int)
      (d : List ResultItem), found < count →
      ((searchLoop term ot count s found cursor).yielded.length : Int) +
          found ≤
        count - 1 +
          (((searchLoop term ot count s found cursor).batches.getLastD
              d).length : Int) := by
  intro s
  induction s with
  | nil =>
    intro found cursor d hf
    simp only [searchLoop, if_pos hf, RunResult.yielded, List.flatten_nil,
      List.length_nil, List.getLastD_nil]
    omega
  | cons x rest ih =>
    intro found cursor d hf
    cases x with
    | none =>
      simp only [searchLoop, if_pos hf, RunResult.yielded, List.flatten_nil,
        List.length_nil, List.getLastD_nil]
      omega
    | some resp =>
      cases he : (emitPage ot resp).2 with
      | some e =>
        simp only [searchLoop, if_pos hf, he, RunResult.yielded,
          List.flatten_cons, List.flatten_nil, List.append_nil,
          List.getLastD_cons, List.getLastD_nil]
        omega
      | none =>
        by_cases hm : resp.has_more.getD false = true
        · simp only [searchLoop, if_pos hf, he, hm, if_true,
            RunResult.yielded, List.flatten_cons, List.length_append,
            List.getLastD_cons]
          by_cases hf2 :
              found + ((emitPage ot resp).1.length : Int) < count
          · have := ih (found + ((emitPage ot resp).1.length : Int))
              resp.cursor (emitPage ot resp).1 hf2
            simp only [RunResult.yielded] at this
            omega
          · rw [searchLoop_done term ot count rest
              (found + ((emitPage ot resp).1.length : Int)) resp.cursor hf2]
            simp only [List.flatten_nil, List.length_nil, List.getLastD_nil]
            omega
        · simp only [searchLoop, if_pos hf, he, if_neg hm,
            RunResult.yielded, List.flatten_cons, List.flatten_nil,
            List.append_nil, List.getLastD_cons, List.getLastD_nil]
          omega

/-- Lower yield bound: if every scripted page is non-null with
`has_more=true` and the session ends normally, it only ended because the
count threshold was met. -/
theorem searchLoop_lower (term ot : String) (count : Int) :
    ∀ (s : List (Option PageResp)) (found : Int) (cursor : Option Int),
      (∀ x ∈ s, ∃ p, x = some p ∧ p.has_more = some true) →
      (searchLoop term ot count s found cursor).outcome = .ok →
      count ≤ found +
        ((searchLoop term ot count s found cursor).yielded.length : Int) := by
  intro s
  induction s with
  | nil =>
    intro found cursor _ hok
    by_cases hf : found < count
    · simp [searchLoop, hf] at hok
    · simp only [searchLoop, if_neg hf, RunResult.yielded, List.flatten_nil,
        List.length_nil]
      omega
  | cons x rest ih =>
    intro found cursor hs hok
    by_cases hf : found < count
    · obtain ⟨p, rfl, hmp⟩ := hs (x) (List.mem_cons_self x rest)
      cases he : (emitPage ot p).2 with
      | some e => simp [searchLoop, hf, he] at hok
      | none =>
        have hm : p.has_more.getD false = true := by rw [hmp]; rfl
        simp only [searchLoop, if_pos hf, he, hm, if_true,
          RunResult.yielded, List.flatten_cons, List.length_append] at hok ⊢
        have := ih (found + ((emitPage ot p).1.length : Int)) p.cursor
          (fun y hy => hs y (List.mem_cons_of_mem _ hy)) hok
        simp only [RunResult.yielded] at this
        omega
    · rw [searchLoop_done term ot count _ found cursor hf]
      simp only [RunResult.yielded, List.flatten_nil, List.length_nil]
      omega

/-- The user emitter only ever fails with `attributeError` (the
`None.get(...)` crash); it never produces `invalidResponse`. -/
theorem emitUsers_snd (l : List UserRecord) :
    (emitUsers l).2 = none ∨ (emitUsers l).2 = some .attributeError := by
  induction l with
  | nil => left; rfl
  | cons u rest ih =>
    cases hu : u.user_info with
    | none => right; simp [emitUsers, hu]
    | some info =>
      rcases ih with h | h
      · left; simp [emitUsers, hu, h]
      · right; simp [emitUsers, hu, h]

/-- Page emission never produces `invalidResponse`, whatever the object
type and payload: that error can only come from a null transport result. -/
theorem emitPage_snd (ot : String) (p : PageResp) :
    (emitPage ot p).2 = none ∨ (emitPage ot p).2 = some .attributeError := by
  unfold emitPage
  split
  · exact emitUsers_snd _
  · split
    · left; rfl
    · split
      · left; rfl
      · left; rfl

/-- If a session ends with `InvalidResponse`, one of its consumed transport
payloads was null: no non-null payload, however malformed, produces that
error. -/
theorem searchLoop_invalid_needs_null (term ot : String) (count : Int) :
    ∀ (s : List (Option PageResp)) (found : Int) (cursor : Option Int),
      (searchLoop term ot count s found cursor).outcome =
        .error .invalidResponse →
      none ∈ (searchLoop term ot count s found cursor).pages := by
  intro s
  induction s with
  | nil =>
    intro found cursor h
    by_cases hf : found < count <;> simp [searchLoop, hf] at h
  | cons x rest ih =>
    intro found cursor h
    by_cases hf : found < count
    · cases x with
      | none => simp [searchLoop, hf]
      | some resp =>
        cases he : (emitPage ot resp).2 with
        | some e =>
          rcases emitPage_snd ot resp with h2 | h2
          · rw [he] at h2
            exact absurd h2 (by simp)
          · rw [he] at h2
            obtain rfl : e = RunError.attributeError := Option.some_inj.mp h2
            simp [searchLoop, hf, he] at h
        | none =>
          by_cases hm : resp.has_more.getD false = true
          · simp only [searchLoop, if_pos hf, he, hm, if_true] at h ⊢
            exact List.mem_cons_of_mem _
              (ih (found + ((emitPage ot resp).1.length : Int)) resp.cursor h)
          · simp [searchLoop, hf, he, hm] at h
    · rw [searchLoop_done term ot count _ found cursor hf] at h
      simp at h

/-! Concrete pages used to instantiate the theorems on closed inputs. -/

/-- A page with three user records, `has_more=true`, `cursor=12`. -/
def wPageMore : PageResp :=
  ⟨some [⟨some ⟨some "s1", some "u1", some "n1"⟩⟩,
      ⟨some ⟨some "s2", some "u2", some "n2"⟩⟩,
      ⟨some ⟨none, some "u3", some "n3"⟩⟩],
    none, none, some true, some 12⟩

/-- A page with one user record and `has_more=false`. -/
def wPageLast : PageResp :=
  ⟨some [⟨some ⟨some "s9", some "u9", some "n9"⟩⟩], none, none,
    some false, none⟩

/-- A page with one user record, `has_more=true` and no `cursor` field. -/
def wPageNoCursor : PageResp :=
  ⟨some [⟨some ⟨some "s4", some "u4", some "n4"⟩⟩], none, none,
    some true, none⟩

/-- A payload in which every field the driver reads is absent: the model of
a successfully returned but empty JSON object. -/
def emptyPage : PageResp := ⟨none, none, none, none, none⟩

/-- A payload whose `video_list` is present but empty, with `has_more`
absent. -/
def wPageEmptyVid : PageResp := ⟨none, some [], none, none, none⟩

/-! The claims. -/

/-- Claim C1: with `count > 0`, one search session never yields more than
`count + (last page's batch size - 1)` items, because the count threshold is
checked only between pages; and when every scripted page is non-null with
`has_more=true` and the session ends normally, at least `count` items were
yielded. -/
theorem C1_yield_count_bounds (term ot : String) (count cursor : Int)
    (script : List (Option PageResp)) (hc : 0 < count) :
    (((search_type term ot count cursor script).yielded.length : Int) ≤
      count +
        ((((search_type term ot count cursor script).batches.getLastD
            []).length : Int) - 1)) ∧
    ((∀ x ∈ script, ∃ p, x = some p ∧ p.has_more = some true) →
      (search_type term ot count cursor script).outcome = .ok →
      count ≤
        ((search_type term ot count cursor script).yielded.length : Int)) := by
  constructor
  · have := searchLoop_upper term ot count script 0 (some cursor) [] hc
    unfold search_type
    omega
  · intro hs hok
    unfold search_type at hok ⊢
    have := searchLoop_lower term ot count script 0 (some cursor) hs hok
    omega

/-- Witness for C1 at `count = 2` with one three-item page. -/
theorem C1_yield_count_bounds_witness :
    ((0 : Int) < 2) ∧
    ((((search_type "t" "user/full" 2 0 [some wPageMore]).yielded.length :
        Int) ≤
      2 +
        ((((search_type "t" "user/full" 2 0
            [some wPageMore]).batches.getLastD []).length : Int) - 1)) ∧
    ((∀ x ∈ [some wPageMore], ∃ p, x = some p ∧ p.has_more = some true) →
      (search_type "t" "user/full" 2 0 [some wPageMore]).outcome = .ok →
      2 ≤ ((search_type "t" "user/full" 2 0
          [some wPageMore]).yielded.length : Int))) :=
  ⟨by decide, C1_yield_count_bounds "t" "user/full" 2 0 [some wPageMore]
    (by decide)⟩

/-- Claim C2: whenever a `k+1`-st page request exists, its cursor parameter
is exactly the `cursor` field of the `k`-th consumed (non-null) response;
the driver never computes the next cursor locally. -/
theorem C2_cursor_from_previous_response (term ot : String)
    (count cursor : Int) (script : List (Option PageResp)) (k : Nat)
    (q : Request)
    (h : (search_type term ot count cursor script).requests[k + 1]? =
      some q) :
    ∃ p, (search_type term ot count cursor script).pages[k]? =
        some (some p) ∧
      q.cursor = p.cursor :=
  searchLoop_cursor_chain term ot count script 0 (some cursor) k q h

/-- Witness for C2: the second request of a two-page session carries the
first page's `cursor=12`. -/
theorem C2_cursor_from_previous_response_witness :
    ((search_type "t" "user/full" 4 0
        [some wPageMore, some wPageLast]).requests[0 + 1]? =
      some (mkRequest "t" "user/full" (some 12))) ∧
    (∃ p, (search_type "t" "user/full" 4 0
        [some wPageMore, some wPageLast]).pages[0]? = some (some p) ∧
      (mkRequest "t" "user/full" (some 12)).cursor = p.cursor) :=
  ⟨by decide, C2_cursor_from_previous_response "t" "user/full" 4 0
    [some wPageMore, some wPageLast] 0 (mkRequest "t" "user/full" (some 12))
    (by decide)⟩

/-- Counterexample to C3 as stated: a successfully returned payload with the
expected `user_list` field absent does NOT raise `InvalidResponse` — the
session ends normally with zero items after one request, because
`resp.get("user_list", [])` defaults to the empty list and
`resp.get("has_more", False)` then ends the loop. -/
theorem C3_counterexample :
    (search_type "t" "user/full" 10 0 [some emptyPage]).outcome ≠
      .error .invalidResponse ∧
    (search_type "t" "user/full" 10 0 [some emptyPage]).outcome = .ok ∧
    (search_type "t" "user/full" 10 0 [some emptyPage]).yielded = [] ∧
    (search_type "t" "user/full" 10 0 [some emptyPage]).requests.length =
      1 := by decide

/-- Claim C3 amended: only a null transport payload raises
`InvalidResponse` — an `InvalidResponse` outcome implies some consumed
payload was null; and for every search kind, a non-null payload whose
expected list field (`user_list` / `video_list` / `suggestion_list`) is
absent or an empty list contributes zero items, and when its `has_more` is
false/absent the session ends normally after that single fetch (no error,
no retry). -/
theorem C3_amended_null_only_fatal :
    (∀ (term ot : String) (count cursor : Int)
      (script : List (Option PageResp)),
      (search_type term ot count cursor script).outcome =
        .error .invalidResponse →
      none ∈ (search_type term ot count cursor script).pages) ∧
    (∀ (term ot : String) (count cursor : Int) (p : PageResp)
      (rest : List (Option PageResp)),
      0 < count →
      ((ot = "user/full" ∧
          (p.user_list = none ∨ p.user_list = some [])) ∨
        (ot = "general/full" ∧
          (p.video_list = none ∨ p.video_list = some [])) ∨
        (ot = "general/preview" ∧
          (p.suggestion_list = none ∨ p.suggestion_list = some []))) →
      p.has_more.getD false = false →
      (search_type term ot count cursor (some p :: rest)).outcome = .ok ∧
      (search_type term ot count cursor (some p :: rest)).yielded = [] ∧
      (search_type term ot count cursor
        (some p :: rest)).requests.length = 1) := by
  constructor
  · intro term ot count cursor script h
    exact searchLoop_invalid_needs_null term ot count script 0 (some cursor) h
  · intro term ot count cursor p rest h0 hl hm
    have he : emitPage ot p = ([], none) := by
      rcases hl with ⟨rfl, hl⟩ | ⟨rfl, hl⟩ | ⟨rfl, hl⟩ <;>
        rcases hl with hl | hl <;> simp [emitPage, emitUsers, hl]
    unfold search_type
    simp [searchLoop, h0, he, hm, RunResult.yielded]

/-- Witness for the amended C3: a null page makes `InvalidResponse` with the
null among the consumed pages, and an empty `video_list` page under
`general/full` ends the session normally with zero items after one fetch. -/
theorem C3_amended_null_only_fatal_witness :
    ((search_type "t" "user/full" 3 0 [none]).outcome =
        .error .invalidResponse ∧
      none ∈ (search_type "t" "user/full" 3 0 [none]).pages) ∧
    (((0 : Int) < 10 ∧
      (("general/full" = "user/full" ∧
          (wPageEmptyVid.user_list = none ∨
            wPageEmptyVid.user_list = some [])) ∨
        ("general/full" = "general/full" ∧
          (wPageEmptyVid.video_list = none ∨
            wPageEmptyVid.video_list = some [])) ∨
        ("general/full" = "general/preview" ∧
          (wPageEmptyVid.suggestion_list = none ∨
            wPageEmptyVid.suggestion_list = some []))) ∧
      wPageEmptyVid.has_more.getD false = false) ∧
    ((search_type "t" "general/full" 10 0
        [some wPageEmptyVid]).outcome = .ok ∧
      (search_type "t" "general/full" 10 0
        [some wPageEmptyVid]).yielded = [] ∧
      (search_type "t" "general/full" 10 0
        [some wPageEmptyVid]).requests.length = 1)) :=
  ⟨⟨by decide,
      C3_amended_null_only_fatal.1 "t" "user/full" 3 0 [none] (by decide)⟩,
    ⟨by decide,
      C3_amended_null_only_fatal.2 "t" "general/full" 10 0 wPageEmptyVid []
        (by decide) (by decide) (by decide)⟩⟩

/-- Claim C4: a null transport payload raises `InvalidResponse`; the session
issues no further request and yields nothing from that call onward (every
batch of yielded items comes from one of the `k` earlier pages). -/
theorem C4_null_response_ends_session (term ot : String)
    (count cursor : Int) (script : List (Option PageResp)) (k : Nat)
    (h : (search_type term ot count cursor script).pages[k]? = some none) :
    (search_type term ot count cursor script).outcome =
      .error .invalidResponse ∧
    (search_type term ot count cursor script).requests.length = k + 1 ∧
    (search_type term ot count cursor script).pages.length = k + 1 ∧
    (search_type term ot count cursor script).batches.length = k :=
  searchLoop_null_page term ot count script 0 (some cursor) k h

/-- Witness for C4: a null second response is fatal after one good page. -/
theorem C4_null_response_ends_session_witness :
    ((search_type "t" "user/full" 10 0 [some wPageMore, none]).pages[1]? =
      some none) ∧
    ((search_type "t" "user/full" 10 0 [some wPageMore, none]).outcome =
      .error .invalidResponse ∧
    (search_type "t" "user/full" 10 0
      [some wPageMore, none]).requests.length = 1 + 1 ∧
    (search_type "t" "user/full" 10 0 [some wPageMore, none]).pages.length =
      1 + 1 ∧
    (search_type "t" "user/full" 10 0
      [some wPageMore, none]).batches.length = 1) :=
  ⟨by decide, C4_null_response_ends_session "t" "user/full" 10 0
    [some wPageMore, none] 1 (by decide)⟩

/-- Claim C5: once a consumed page reports `has_more` false or absent the
session terminates permanently — that page is the last, with exactly `k+1`
transport calls; in particular, when `count > 0` and the first scripted
response has falsy `has_more`, exactly one transport call is made. -/
theorem C5_has_more_false_stops_fetching (term ot : String)
    (count cursor : Int) (script : List (Option PageResp)) :
    (∀ (k : Nat) (p : PageResp),
      (search_type term ot count cursor script).pages[k]? =
        some (some p) →
      p.has_more.getD false = false →
      (search_type term ot count cursor script).requests.length = k + 1 ∧
      (search_type term ot count cursor script).pages.length = k + 1) ∧
    (0 < count → ∀ (p : PageResp) (rest : List (Option PageResp)),
      script = some p :: rest → p.has_more.getD false = false →
      (search_type term ot count cursor script).requests.length = 1) := by
  constructor
  · intro k p h hm
    exact searchLoop_no_more term ot count script 0 (some cursor) k p h hm
  · intro h0 p rest hscript hm
    subst hscript
    have hp := searchLoop_first_page_cons term ot count p rest 0
      (some cursor) h0
    exact (searchLoop_no_more term ot count _ 0 (some cursor) 0 p hp hm).1

/-- Witness for C5: `count = 3`, first page has `has_more=false`, and only
one request is made even though more pages are scripted. -/
theorem C5_has_more_false_stops_fetching_witness :
    ((0 : Int) < 3 ∧ wPageLast.has_more.getD false = false) ∧
    ((search_type "t" "user/full" 3 0
      [some wPageLast, some wPageMore]).requests.length = 1) :=
  ⟨by decide,
    (C5_has_more_false_stops_fetching "t" "user/full" 3 0
        [some wPageLast, some wPageMore]).2 (by decide) wPageLast
      [some wPageMore] rfl (by decide)⟩

/-- Claim C6 (code bug): a user record whose `user_info` is present but
lacks `sec_uid` decodes to a user reference with that field `none` — but a
record whose `user_info` itself is absent/null makes the decoder raise
(`None.get("sec_uid")`, an `AttributeError`), contradicting the requirement
that the decoder fail only on a missing/malformed `user_list`. -/
theorem C6_missing_nested_field_behavior :
    emitUsers [⟨some ⟨none, some "42", some "name"⟩⟩] =
      ([.userRef none (some "42") (some "name")], none) ∧
    (search_type "t" "user/full" 5 0
      [some ⟨some [⟨some ⟨none, some "42", some "name"⟩⟩], none, none,
        none, none⟩]).yielded =
      [.userRef none (some "42") (some "name")] ∧
    (search_type "t" "user/full" 5 0
      [some ⟨some [⟨none⟩], none, none, none, none⟩]).outcome =
      .error .attributeError ∧
    (search_type "t" "user/full" 5 0
      [some ⟨some [⟨none⟩], none, none, none, none⟩]).yielded = [] := by
  decide

/-- Claim C7: every request of every session carries exactly the parameter
set `{keyword = term, cursor, from_page = "search", web_search_code =
the fixed literal}` and the `web_search_code` value is identical across all
requests of all sessions and kinds. -/
theorem C7_request_params_exact (term ot : String) (count cursor : Int)
    (script : List (Option PageResp)) (q : Request)
    (hq : q ∈ (search_type term ot count cursor script).requests) :
    q.keyword = term ∧ q.from_page = "search" ∧
    q.web_search_code = webSearchCodeLiteral ∧
    q.url = "https://www.tiktok.com/api/search/" ++ ot ++ "/" ∧
    (∀ (term2 ot2 : String) (count2 cursor2 : Int)
      (script2 : List (Option PageResp)) (q2 : Request),
      q2 ∈ (search_type term2 ot2 count2 cursor2 script2).requests →
      q2.web_search_code = q.web_search_code) := by
  obtain ⟨h1, h2, h3, h4⟩ :=
    searchLoop_request_params term ot count script 0 (some cursor) q hq
  refine ⟨h1, h2, h3, h4, ?_⟩
  intro term2 ot2 count2 cursor2 script2 q2 hq2
  obtain ⟨_, _, h3', _⟩ :=
    searchLoop_request_params term2 ot2 count2 script2 0 (some cursor2) q2 hq2
  rw [h3', h3]

/-- Witness for C7 at the sole request of a one-page session. -/
theorem C7_request_params_exact_witness :
    (mkRequest "t" "user/full" (some 0) ∈
      (search_type "t" "user/full" 2 0 [some wPageLast]).requests) ∧
    ((mkRequest "t" "user/full" (some 0)).keyword = "t" ∧
    (mkRequest "t" "user/full" (some 0)).from_page = "search" ∧
    (mkRequest "t" "user/full" (some 0)).web_search_code =
      webSearchCodeLiteral ∧
    (mkRequest "t" "user/full" (some 0)).url =
      "https://www.tiktok.com/api/search/" ++ "user/full" ++ "/" ∧
    (∀ (term2 ot2 : String) (count2 cursor2 : Int)
      (script2 : List (Option PageResp)) (q2 : Request),
      q2 ∈ (search_type term2 ot2 count2 cursor2 script2).requests →
      q2.web_search_code =
        (mkRequest "t" "user/full" (some 0)).web_search_code)) :=
  ⟨by decide, C7_request_params_exact "t" "user/full" 2 0 [some wPageLast]
    (mkRequest "t" "user/full" (some 0)) (by decide)⟩

/-- Claim C8: `general` with `count > 9` logs exactly the advisory warning,
and the delegated run is identical to a plain `search_type` call with
`"general/full"` — the advisory alters neither the yields nor the transport
calls. -/
theorem C8_general_count_warning_advisory (term : String)
    (count cursor : Int) (script : List (Option PageResp))
    (h : 9 < count) :
    (general term count cursor script).warnings = [generalWarning] ∧
    (general term count cursor script).run =
      search_type term "general/full" count cursor script := by
  constructor
  · simp [general, h]
  · rfl

/-- Witness for C8 at `count = 20`. -/
theorem C8_general_count_warning_advisory_witness :
    ((9 : Int) < 20) ∧
    ((general "t" 20 0 []).warnings = [generalWarning] ∧
    (general "t" 20 0 []).run = search_type "t" "general/full" 20 0 []) :=
  ⟨by decide, C8_general_count_warning_advisory "t" 20 0 [] (by decide)⟩

/-- Claim C9: for `count ≤ 0` the fetch loop is never entered: no transport
call, no item, no error — the `found < count` check precedes the first
fetch. -/
theorem C9_nonpositive_count_no_fetch (term ot : String)
    (count cursor : Int) (script : List (Option PageResp))
    (h : count ≤ 0) :
    (search_type term ot count cursor script).requests = [] ∧
    (search_type term ot count cursor script).yielded = [] ∧
    (search_type term ot count cursor script).outcome = .ok := by
  have h0 : ¬ (0 : Int) < count := by omega
  unfold search_type
  rw [searchLoop_done term ot count script 0 (some cursor) h0]
  exact ⟨rfl, rfl, rfl⟩

/-- Witness for C9 at `count = 0`. -/
theorem C9_nonpositive_count_no_fetch_witness :
    ((0 : Int) ≤ 0) ∧
    ((search_type "t" "user/full" 0 0 [some wPageMore]).requests = [] ∧
    (search_type "t" "user/full" 0 0 [some wPageMore]).yielded = [] ∧
    (search_type "t" "user/full" 0 0 [some wPageMore]).outcome = .ok) :=
  ⟨by decide, C9_nonpositive_count_no_fetch "t" "user/full" 0 0
    [some wPageMore] (by decide)⟩

/-- Claim C10: a page with `has_more=true` but no `cursor` field does not
fail the session and does not keep the previous cursor: the next request is
issued with a `None` cursor parameter, because `cursor = resp.get("cursor")`
overwrites unconditionally with no default. -/
theorem C10_missing_cursor_next_request_none (term ot : String)
    (count cursor : Int) (p : PageResp) (x : Option PageResp)
    (rest : List (Option PageResp))
    (he : (emitPage ot p).2 = none) (hm : p.has_more = some true)
    (hcur : p.cursor = none)
    (hfound : ((emitPage ot p).1.length : Int) < count) :
    (search_type term ot count cursor (some p :: x :: rest)).requests[1]? =
      some (mkRequest term ot none) := by
  have h0 : (0 : Int) < count := by
    have hnn : (0 : Int) ≤ ((emitPage ot p).1.length : Int) :=
      Int.ofNat_nonneg _
    omega
  have hmg : p.has_more.getD false = true := by rw [hm]; rfl
  unfold search_type
  simp only [searchLoop, if_pos h0, he, hmg, if_true]
  rw [show (1 : Nat) = 0 + 1 from rfl, List.getElem?_cons_succ]
  have h1 : (0 : Int) + ((emitPage ot p).1.length : Int) < count := by omega
  show (searchLoop term ot count (x :: rest)
      (0 + ((emitPage ot p).1.length : Int)) p.cursor).requests[0]? =
    some (mkRequest term ot none)
  rw [hcur]
  exact searchLoop_first_request_cons term ot count x rest
    (0 + ((emitPage ot p).1.length : Int)) none h1

/-- Witness for C10 at a page with one user, `has_more=true`, no cursor. -/
theorem C10_missing_cursor_next_request_none_witness :
    ((emitPage "user/full" wPageNoCursor).2 = none ∧
      wPageNoCursor.has_more = some true ∧ wPageNoCursor.cursor = none ∧
      ((emitPage "user/full" wPageNoCursor).1.length : Int) < 3) ∧
    ((search_type "t" "user/full" 3 0
        [some wPageNoCursor, some wPageLast]).requests[1]? =
      some (mkRequest "t" "user/full" none)) :=
  ⟨by decide, C10_missing_cursor_next_request_none "t" "user/full" 3 0
    wPageNoCursor (some wPageLast) [] (by decide) (by decide) (by decide)
    (by decide)⟩

end TikTokSearch
